import Mathlib

/-!
Verification of `experiments/veo-app/models/image_models.py`.

The file under verification is a thin orchestration layer over a hosted
image-generation API.  We shallowly embed the parts of it that carry logic:

* the response-normalization list comprehension shared by
  `generate_images_from_prompt`, `generate_virtual_models` and `edit_image`;
* the post-call branching of `edit_image`;
* the single-image convenience path `generate_image_for_vto`;
* the request building and response loop of `recontextualize_product_in_scene`;
* the argument resolution and absence check of `ImagenModelSetup.init`;
* the retry combinator wrapped around `generate_images` and `edit_image`
  (the combinator itself lives in the external `tenacity` library, so it is
  modelled from the spec; the parameters come from the source).

Python values of type `Optional[T]` are embedded as `Option T`; Python
truthiness of strings, lists and bytes is made explicit; Python `hasattr`
on pydantic response models is embedded by the functions below, with the
semantics that a declared model field always exists (even when its value is
`None`), while attribute access on the value `None` itself finds nothing.
-/

namespace ImageModels

/-- The `Image` payload of a generated-image entry: pydantic model with
`gcs_uri : Optional[str]` and `image_bytes : Optional[bytes]`. -/
structure Image where
  gcs_uri : Option String
  image_bytes : Option (List Nat)
deriving Repr, DecidableEq, Inhabited

/-- One entry of `response.generated_images`: pydantic model whose `image`
field is `Optional[Image]`; a failed slot has `image = None` and carries an
error marker (RAI filter reason). -/
structure GeneratedImage where
  image : Option Image
  error : Option String
deriving Repr, DecidableEq, Inhabited

/-- The response of `client.models.generate_images` / `edit_image`. -/
structure GenerateImagesResponse where
  generated_images : List GeneratedImage
  error : Option String
deriving Repr, DecidableEq, Inhabited

/-- Python `hasattr(img, "image")`: `image` is a declared field of the
pydantic `GeneratedImage` model, so the attribute always exists. -/
def hasattr_image (_ : GeneratedImage) : Bool := true

/-- Python `hasattr(img.image, "gcs_uri")`: false when `img.image` is `None`
(`hasattr(None, "gcs_uri")` is false), true on any `Image` instance because
`gcs_uri` is a declared field. -/
def hasattr_gcs_uri : Option Image → Bool
  | none => false
  | some _ => true

/-- The list comprehension
`[img.image.gcs_uri for img in response.generated_images
  if hasattr(img, "image") and hasattr(img.image, "gcs_uri")]`
shared verbatim by `generate_images_from_prompt` (lines 182-187),
`generate_virtual_models` (lines 208-213) and `edit_image` (lines 350-355).
Each kept element is the value of `img.image.gcs_uri`, an `Option String`. -/
def extractUris (gens : List GeneratedImage) : List (Option String) :=
  gens.filterMap fun img =>
    if hasattr_image img && hasattr_gcs_uri img.image then
      some ((img.image.getD default).gcs_uri)
    else
      none

/-- The URIs carried by the successful entries, in order: spec-side
description used to state the normalization contract. -/
def successUris (gens : List GeneratedImage) : List String :=
  gens.filterMap fun g => g.image.bind Image.gcs_uri

/-- Whether an entry is a success (it carries an image object). -/
def isSuccess (g : GeneratedImage) : Bool := g.image.isSome

/-- The post-call normalization of `edit_image` (lines 342-365): a truthy
(non-empty) `generated_images` list is fed to the comprehension; the
`elif hasattr(response, "error")` branch and the final `else` branch both
return an empty list. -/
def edit_image_normalize (r : GenerateImagesResponse) : List (Option String) :=
  if r.generated_images ≠ [] then
    extractUris r.generated_images
  else if r.error.isSome then
    []
  else
    []

theorem extractUris_nil : extractUris [] = [] := rfl

theorem extractUris_cons_success (im : Image) (e : Option String)
    (rest : List GeneratedImage) :
    extractUris (⟨some im, e⟩ :: rest) = im.gcs_uri :: extractUris rest := rfl

theorem extractUris_cons_failure (e : Option String)
    (rest : List GeneratedImage) :
    extractUris (⟨none, e⟩ :: rest) = extractUris rest := rfl

theorem extractUris_length (gens : List GeneratedImage) :
    (extractUris gens).length = (gens.filter isSuccess).length := by
  induction gens with
  | nil => rfl
  | cons g rest ih =>
      obtain ⟨im | im, e⟩ := g
      · simpa [extractUris_cons_failure, isSuccess, List.filter] using ih
      · simpa [extractUris_cons_success, isSuccess, List.filter] using ih

theorem extractUris_eq_successUris (gens : List GeneratedImage)
    (h : ∀ g ∈ gens, ∀ im, g.image = some im → im.gcs_uri.isSome) :
    extractUris gens = (successUris gens).map some := by
  induction gens with
  | nil => rfl
  | cons g rest ih =>
      obtain ⟨im | im, e⟩ := g
      · have := ih (fun g hg => h g (List.mem_cons_of_mem _ hg))
        simpa [extractUris_cons_failure, successUris, List.filterMap] using this
      · have hrest := ih (fun g hg => h g (List.mem_cons_of_mem _ hg))
        have him : im.gcs_uri.isSome :=
          h ⟨some im, e⟩ (List.mem_cons_self _ _) im rfl
        obtain ⟨u, hu⟩ := Option.isSome_iff_exists.mp him
        simp [extractUris_cons_success, successUris, List.filterMap, hu, hrest]

/-- Claim C1: the response normalization shared by
`generate_images_from_prompt`, `generate_virtual_models` and `edit_image`
keeps exactly the successful entries: on any entry list it returns one
element per success (N successes and M failures normalize to exactly N
results), and when every successful entry carries a URI the result is
precisely the list of those URIs in the original order, every failed entry
dropped. -/
theorem normalization_keeps_exactly_the_successes
    (gens : List GeneratedImage)
    (h : ∀ g ∈ gens, ∀ im, g.image = some im → im.gcs_uri.isSome) :
    (extractUris gens).length = (gens.filter isSuccess).length ∧
    extractUris gens = (successUris gens).map some := by
  exact ⟨extractUris_length gens, extractUris_eq_successUris gens h⟩

/-- Witness for C1: two successes around one failure normalize to the two
URIs, in order. -/
theorem normalization_keeps_exactly_the_successes_witness :
    (extractUris
        [⟨some ⟨some "gs://bucket/a.png", none⟩, none⟩,
         ⟨none, some "rai filtered"⟩,
         ⟨some ⟨some "gs://bucket/b.png", none⟩, none⟩]).length =
      ([⟨some ⟨some "gs://bucket/a.png", none⟩, none⟩,
        ⟨none, some "rai filtered"⟩,
        ⟨some ⟨some "gs://bucket/b.png", none⟩, none⟩].filter isSuccess).length ∧
    extractUris
        [⟨some ⟨some "gs://bucket/a.png", none⟩, none⟩,
         ⟨none, some "rai filtered"⟩,
         ⟨some ⟨some "gs://bucket/b.png", none⟩, none⟩] =
      (successUris
        [⟨some ⟨some "gs://bucket/a.png", none⟩, none⟩,
         ⟨none, some "rai filtered"⟩,
         ⟨some ⟨some "gs://bucket/b.png", none⟩, none⟩]).map some :=
  normalization_keeps_exactly_the_successes _ (by decide)

/-- Claim C5: an empty entry list, and a list all of whose entries are
failures, both normalize to the empty sequence, in the bare comprehension
(generate paths) as well as in `edit_image` with its outer branches; the
embedding is a total function, so no error is raised. -/
theorem normalization_empty_and_all_failed
    (gens : List GeneratedImage) (err : Option String)
    (hall : ∀ g ∈ gens, g.image = none) :
    extractUris [] = [] ∧
    extractUris gens = [] ∧
    edit_image_normalize ⟨[], err⟩ = [] ∧
    edit_image_normalize ⟨gens, err⟩ = [] := by
  have hx : extractUris gens = [] := by
    induction gens with
    | nil => rfl
    | cons g rest ih =>
        have hg : g.image = none := hall g (List.mem_cons_self _ _)
        obtain ⟨im, e⟩ := g
        cases hg
        exact (extractUris_cons_failure e rest).trans
          (ih fun g hg => hall g (List.mem_cons_of_mem _ hg))
  refine ⟨rfl, hx, by simp [edit_image_normalize], ?_⟩
  by_cases hnil : gens = []
  · simp [edit_image_normalize, hnil]
  · simp [edit_image_normalize, hnil, hx]

/-- Witness for C5: a two-entry all-failure response normalizes to `[]` in
both the generate and the edit paths. -/
theorem normalization_empty_and_all_failed_witness :
    extractUris [] = [] ∧
    extractUris [⟨none, some "rai filtered"⟩, ⟨none, none⟩] = [] ∧
    edit_image_normalize ⟨[], some "quota"⟩ = [] ∧
    edit_image_normalize ⟨[⟨none, some "rai filtered"⟩, ⟨none, none⟩], some "quota"⟩ = [] :=
  normalization_empty_and_all_failed _ _ (by decide)

/-- Python truthiness of an `Optional[bytes]` value: `None` and `b""` are
falsy, non-empty bytes are truthy. -/
def pyTruthyBytes : Option (List Nat) → Bool
  | none => false
  | some b => !b.isEmpty

/-- Outcome of the single-image path `generate_image_for_vto`: either the
raw bytes, or a raised `ValueError`, or a raised `AttributeError` (from
attribute access on `None`). -/
inductive VtoResult
  | ok (data : List Nat)
  | valueError (msg : String)
  | attributeError (msg : String)
deriving Repr, DecidableEq

/-- The exact `ValueError` message of `generate_image_for_vto` (line 248). -/
def vtoErrMsg : String := "Image generation failed or returned no data."

/-- The `number_of_images` value in the `GenerateImagesConfig` that
`generate_image_for_vto` sends (line 241). -/
def vto_number_of_images : Nat := 1

/-- The response handling of `generate_image_for_vto` (lines 245-248):
`if response.generated_images and response.generated_images[0].image.image_bytes:`
— an empty (falsy) list short-circuits to the `ValueError`; on a non-empty
list, `response.generated_images[0].image.image_bytes` is evaluated, which
raises `AttributeError` when the first entry's `image` is `None`; otherwise
the branch follows the truthiness of the bytes. -/
def vto_extract (r : GenerateImagesResponse) : VtoResult :=
  match r.generated_images with
  | [] => .valueError vtoErrMsg
  | g :: _ =>
      match g.image with
      | none => .attributeError "NoneType object has no attribute image_bytes"
      | some im =>
          if pyTruthyBytes im.image_bytes then
            .ok (im.image_bytes.getD [])
          else
            .valueError vtoErrMsg

/-- Counterexample for C3: a response whose single entry is a failure (its
`image` is `None`) has a successful-entry extraction yielding no bytes, yet
`generate_image_for_vto` does not fail with the domain `ValueError`: the
unguarded attribute chain raises an `AttributeError` instead.  (The domain
message is also `"Image generation failed or returned no data."`, not the
claimed `"generation failed or returned no data"`.) -/
theorem vto_failure_entry_is_not_a_domain_error :
    vto_extract ⟨[⟨none, some "rai filtered"⟩], none⟩ =
      .attributeError "NoneType object has no attribute image_bytes" := rfl

/-- Claim C3 (amended): `generate_image_for_vto` requests exactly one image;
a response with an empty generated-image list, or whose first entry carries
an image object with absent or empty bytes, raises the domain `ValueError`
whose non-empty message is `"Image generation failed or returned no data."`;
a response whose first entry carries (non-empty) image bytes returns those
raw bytes.  (A first entry whose image object is `None` instead raises an
`AttributeError`; see C10.) -/
theorem vto_single_image_contract (gens : List GeneratedImage)
    (err : Option String) :
    vto_number_of_images = 1 ∧
    vtoErrMsg ≠ "" ∧
    vto_extract ⟨[], err⟩ = .valueError vtoErrMsg ∧
    (∀ g rest im, gens = g :: rest → g.image = some im →
      pyTruthyBytes im.image_bytes = false →
      vto_extract ⟨gens, err⟩ = .valueError vtoErrMsg) ∧
    (∀ g rest im b, gens = g :: rest → g.image = some im →
      im.image_bytes = some b → b ≠ [] →
      vto_extract ⟨gens, err⟩ = .ok b) := by
  refine ⟨rfl, by decide, rfl, ?_, ?_⟩
  · rintro g rest im rfl him hb
    simp [vto_extract, him, hb]
  · rintro g rest im b rfl him hb hne
    have ht : pyTruthyBytes (some b) = true := by
      simp [pyTruthyBytes, List.isEmpty_iff, hne]
    simp [vto_extract, him, hb, ht]

/-- Witness for C3 (amended): a one-success response returns its bytes, the
empty response raises the domain error, and exactly one image is requested. -/
theorem vto_single_image_contract_witness :
    vto_number_of_images = 1 ∧
    vto_extract ⟨[], none⟩ = .valueError vtoErrMsg ∧
    vto_extract ⟨[⟨some ⟨none, some [137, 80, 78, 71]⟩, none⟩], none⟩ =
      .ok [137, 80, 78, 71] := by
  have h := vto_single_image_contract
    [⟨some ⟨none, some [137, 80, 78, 71]⟩, none⟩] none
  exact ⟨h.1, (vto_single_image_contract [] none).2.2.1,
    h.2.2.2.2 _ _ _ [137, 80, 78, 71] rfl rfl rfl (by decide)⟩

/-- Claim C10: `generate_image_for_vto` is not total over response shapes:
a non-empty generated-image list whose first entry has `image = None` makes
the unguarded access raise an `AttributeError`, not the domain `ValueError`;
and the domain-error branch is reached only when the list is empty or the
first entry's image object is present with falsy bytes. -/
theorem vto_not_total_on_none_image (g : GeneratedImage)
    (rest : List GeneratedImage) (err : Option String)
    (him : g.image = none) :
    vto_extract ⟨g :: rest, err⟩ =
      .attributeError "NoneType object has no attribute image_bytes" ∧
    (∀ r : GenerateImagesResponse, ∀ m,
      vto_extract r = .valueError m →
      r.generated_images = [] ∨
      ∃ g0 rest0 im, r.generated_images = g0 :: rest0 ∧ g0.image = some im ∧
        pyTruthyBytes im.image_bytes = false) := by
  constructor
  · simp [vto_extract, him]
  · rintro ⟨gens, e⟩ m hm
    match gens with
    | [] => exact Or.inl rfl
    | g0 :: rest0 =>
        refine Or.inr ?_
        match hg0 : g0.image with
        | none => simp [vto_extract, hg0] at hm
        | some im =>
            refine ⟨g0, rest0, im, rfl, hg0, ?_⟩
            by_contra hb
            have hb' : pyTruthyBytes im.image_bytes = true := by
              simpa using hb
            simp [vto_extract, hg0, hb'] at hm

/-- Witness for C10: the concrete one-failure response raises the attribute
error, and the empty response indeed satisfies the reached-only-when
disjunction. -/
theorem vto_not_total_on_none_image_witness :
    vto_extract ⟨[⟨none, none⟩], some "quota"⟩ =
      .attributeError "NoneType object has no attribute image_bytes" ∧
    ((⟨[], none⟩ : GenerateImagesResponse).generated_images = [] ∨
      ∃ g0 rest0 im,
        (⟨[], none⟩ : GenerateImagesResponse).generated_images = g0 :: rest0 ∧
        g0.image = some im ∧ pyTruthyBytes im.image_bytes = false) := by
  have h := vto_not_total_on_none_image ⟨none, none⟩ [] (some "quota") rfl
  exact ⟨h.1, h.2 ⟨[], none⟩ vtoErrMsg rfl⟩

/-- Counterexample for C4: `edit_image` receives a response whose result
list is empty or absent after a successful call (here: empty list alongside
an error marker) and returns the empty list — an empty success handed to
the caller, not an explicit error; the bare comprehension of the generate
paths likewise yields `[]`.  The claim says every operation surfaces such a
domain failure as an explicit error. -/
theorem edit_image_empty_result_is_empty_success :
    edit_image_normalize ⟨[], some "internal error"⟩ = [] ∧
    extractUris [] = [] := ⟨rfl, rfl⟩

/-- Claim C4 (amended): only the single-image convenience path surfaces a
domain failure — empty or absent result after a successful call — as an
explicit error (`ValueError`); the list-returning operations
(`generate_images_from_prompt`, `generate_virtual_models`, `edit_image`)
return an empty success list instead. -/
theorem domain_failure_surfacing (r : GenerateImagesResponse)
    (hempty : r.generated_images = []) :
    vto_extract r = .valueError vtoErrMsg ∧
    edit_image_normalize r = [] ∧
    extractUris r.generated_images = [] := by
  obtain ⟨gens, e⟩ := r
  cases hempty
  exact ⟨rfl, by simp [edit_image_normalize], rfl⟩

/-- Witness for C4 (amended): the concrete empty response. -/
theorem domain_failure_surfacing_witness :
    vto_extract ⟨[], some "internal"⟩ = .valueError vtoErrMsg ∧
    edit_image_normalize ⟨[], some "internal"⟩ = [] ∧
    extractUris (⟨[], some "internal"⟩ : GenerateImagesResponse).generated_images = [] :=
  domain_failure_surfacing ⟨[], some "internal"⟩ rfl

/-- The configuration object `Default()` (loaded from the environment in
`config/default.py`, outside this component): the three identifiers may
each be present or absent, and `INIT_VERTEX` is a flag passed to the
client constructor. -/
structure DefaultConfig where
  PROJECT_ID : Option String
  LOCATION : Option String
  MODEL_ID : Option String
  INIT_VERTEX : Bool
deriving Repr, DecidableEq

/-- The `genai.Client(vertexai=..., project=..., location=...)` handle
built by `ImagenModelSetup.init` (lines 69-73). -/
structure GenAIClient where
  vertexai : Bool
  project : String
  location : String
deriving Repr, DecidableEq

/-- Outcome of `ImagenModelSetup.init`: a client handle or a raised
`ValueError`. -/
inductive InitResult
  | ok (client : GenAIClient)
  | valueError (msg : String)
deriving Repr, DecidableEq

/-- Python truthiness of an `Optional[str]` value: `None` and `""` are
falsy. -/
def pyTruthyStr : Option String → Bool
  | none => false
  | some s => !(s == "")

/-- One `if not arg: arg = config_value` fallback of `ImagenModelSetup.init`
(lines 60-65): a falsy argument (`None` or `""`) is replaced by the
configuration value; a truthy argument is kept. -/
def resolveArg (passed : Option String) (cfgVal : Option String) : Option String :=
  if pyTruthyStr passed then passed else cfgVal

/-- `ImagenModelSetup.init` (lines 52-74): resolve the three identifiers
against the configuration, raise `ValueError` when `None in [project_id,
location, model_id]` still holds, otherwise build the client from the
resolved project and location. -/
def ImagenModelSetup_init (config : DefaultConfig)
    (project_id location model_id : Option String) : InitResult :=
  let project_id := resolveArg project_id config.PROJECT_ID
  let location := resolveArg location config.LOCATION
  let model_id := resolveArg model_id config.MODEL_ID
  if project_id.isNone || location.isNone || model_id.isNone then
    .valueError "All parameters must be set."
  else
    .ok ⟨config.INIT_VERTEX, project_id.getD "", location.getD ""⟩

/-- Claim C7: `ImagenModelSetup.init` raises exactly when one of the three
identifiers is still `None` after falling back to the configuration
defaults, and otherwise yields the client handle built from the resolved
project and location (with the configured vertex flag). -/
theorem init_fails_iff_identifier_absent (config : DefaultConfig)
    (p l m : Option String) :
    ((∃ msg, ImagenModelSetup_init config p l m = .valueError msg) ↔
      (resolveArg p config.PROJECT_ID = none ∨
       resolveArg l config.LOCATION = none ∨
       resolveArg m config.MODEL_ID = none)) ∧
    (∀ pr lo mo, resolveArg p config.PROJECT_ID = some pr →
      resolveArg l config.LOCATION = some lo →
      resolveArg m config.MODEL_ID = some mo →
      ImagenModelSetup_init config p l m = .ok ⟨config.INIT_VERTEX, pr, lo⟩) := by
  constructor
  · constructor
    · intro ⟨msg, hmsg⟩
      by_contra hnone
      push_neg at hnone
      obtain ⟨hp, hl, hm⟩ := hnone
      simp [ImagenModelSetup_init, Option.isNone_iff_eq_none, hp, hl, hm] at hmsg
    · intro hnone
      refine ⟨"All parameters must be set.", ?_⟩
      rcases hnone with h | h | h <;> simp [ImagenModelSetup_init, h]
  · intro pr lo mo hp hl hm
    simp [ImagenModelSetup_init, hp, hl, hm]

/-- Witness for C7: with a configuration missing its project and no
explicit project, init raises; with all three resolvable, it yields the
client. -/
theorem init_fails_iff_identifier_absent_witness :
    (∃ msg, ImagenModelSetup_init ⟨none, some "us-central1", some "imagen-3.0", true⟩
        none none none = .valueError msg) ∧
    ImagenModelSetup_init ⟨none, some "us-central1", some "imagen-3.0", true⟩
        (some "my-proj") none none = .ok ⟨true, "my-proj", "us-central1"⟩ := by
  constructor
  · exact (init_fails_iff_identifier_absent
      ⟨none, some "us-central1", some "imagen-3.0", true⟩ none none none).1.mpr
      (Or.inl rfl)
  · exact (init_fails_iff_identifier_absent
      ⟨none, some "us-central1", some "imagen-3.0", true⟩
      (some "my-proj") none none).2 "my-proj" "us-central1" "imagen-3.0" rfl rfl rfl

/-- Counterexample for C8: the explicitly passed non-None `project_id`
value `""` does not take precedence over the configuration default — the
falsy-test fallback `if not project_id:` replaces it with the configured
project, and the built client carries `"cfg-project"`, not `""`. -/
theorem init_empty_string_does_not_take_precedence :
    ImagenModelSetup_init ⟨some "cfg-project", some "cfg-location", some "cfg-model", true⟩
        (some "") (some "loc") (some "mod") = .ok ⟨true, "cfg-project", "loc"⟩ := rfl

/-- Claim C8 (amended): an explicitly passed truthy (non-None, non-empty)
argument always takes precedence over the configuration default, while a
`None` or empty-string argument is replaced by the corresponding
configuration value, and the absence check is made on the resolved values. -/
theorem init_resolution_precedence (s : String) (hs : s ≠ "")
    (d : Option String) (config : DefaultConfig) (p l m : Option String) :
    resolveArg (some s) d = some s ∧
    resolveArg none d = d ∧
    resolveArg (some "") d = d ∧
    (ImagenModelSetup_init config p l m = .valueError "All parameters must be set." ↔
      (resolveArg p config.PROJECT_ID = none ∨
       resolveArg l config.LOCATION = none ∨
       resolveArg m config.MODEL_ID = none)) := by
  refine ⟨by simp [resolveArg, pyTruthyStr, hs], rfl, rfl, ?_⟩
  constructor
  · intro hmsg
    by_contra hnone
    push_neg at hnone
    obtain ⟨hp, hl, hm⟩ := hnone
    simp [ImagenModelSetup_init, Option.isNone_iff_eq_none, hp, hl, hm] at hmsg
  · intro hnone
    rcases hnone with h | h | h <;> simp [ImagenModelSetup_init, h]

/-- Witness for C8 (amended): concrete resolution — a truthy argument wins,
`None` and `""` fall back, and the failure condition matches the resolved
values. -/
theorem init_resolution_precedence_witness :
    resolveArg (some "my-proj") (some "cfg-project") = some "my-proj" ∧
    resolveArg none (some "cfg-project") = some "cfg-project" ∧
    resolveArg (some "") (some "cfg-project") = some "cfg-project" ∧
    (ImagenModelSetup_init ⟨some "cfg-project", none, some "cfg-model", false⟩
        none (some "") none = .valueError "All parameters must be set." ↔
      (resolveArg none (some "cfg-project") = none ∨
       resolveArg (some "") (none : Option String) = none ∨
       resolveArg none (some "cfg-model") = none)) :=
  init_resolution_precedence "my-proj" (by decide) (some "cfg-project")
    ⟨some "cfg-project", none, some "cfg-model", false⟩ none (some "") none

/-- One `productImages` entry of the recontextualization request:
`{"image": {"gcsUri": product_image_uri}}` (line 263). -/
structure ProductImageRef where
  gcsUri : String
deriving Repr, DecidableEq

/-- The request body dict built by `recontextualize_product_in_scene`
(called `instance` in the source, lines 261-267). -/
structure RecontextBody where
  productImages : List ProductImageRef
  prompt : Option String
deriving Repr, DecidableEq

/-- The full predict request of `recontextualize_product_in_scene`
(lines 269-273): a singleton `instances` list and the `sampleCount`
parameter. -/
structure RecontextRequest where
  instances : List RecontextBody
  sampleCount : Nat
deriving Repr, DecidableEq

/-- The request construction of `recontextualize_product_in_scene`
(lines 261-273): start from `{"productImages": []}`, append one entry per
input URI in order, add the `"prompt"` key only when `prompt` is truthy
(non-empty), and issue the predict call with `instances=[instance]`
unconditionally. -/
def build_recontext_request (image_uris_list : List String) (prompt : String)
    (sample_count : Nat) : RecontextRequest :=
  let body : RecontextBody :=
    { productImages :=
        image_uris_list.foldl (fun acc u => acc ++ [⟨u⟩]) [],
      prompt := if prompt ≠ "" then some prompt else none }
  { instances := [body], sampleCount := sample_count }

theorem foldl_append_product_refs (uris : List String)
    (acc : List ProductImageRef) :
    uris.foldl (fun acc u => acc ++ [⟨u⟩]) acc =
      acc ++ uris.map ProductImageRef.mk := by
  induction uris generalizing acc with
  | nil => simp
  | cons u rest ih => simp [List.foldl, ih]

/-- Claim C9: the request instance has exactly one `productImages` entry
per input URI in input order (an empty input yields an empty
`productImages` sequence, and the predict call is still issued with a
single instance), and the `"prompt"` field is present if and only if the
prompt argument is non-empty. -/
theorem recontext_request_shape (uris : List String) (prompt : String)
    (c : Nat) :
    ∃ body, (build_recontext_request uris prompt c).instances = [body] ∧
      body.productImages.map ProductImageRef.gcsUri = uris ∧
      body.productImages.length = uris.length ∧
      (body.prompt.isSome ↔ prompt ≠ "") ∧
      (build_recontext_request uris prompt c).sampleCount = c := by
  refine ⟨_, rfl, ?_, ?_, ?_, rfl⟩
  · have : ProductImageRef.gcsUri ∘ ProductImageRef.mk = id := rfl
    simp [build_recontext_request, foldl_append_product_refs, this]
  · simp [build_recontext_request, foldl_append_product_refs]
  · simp only [build_recontext_request]
    by_cases hp : prompt = "" <;> simp [hp]

/-- A prediction entry of the recontextualization response: the
`prediction.get("bytesBase64Encoded")` key may be absent. -/
structure Prediction where
  bytesBase64Encoded : Option String
deriving Repr, DecidableEq

/-- The response loop of `recontextualize_product_in_scene` (lines
275-290), parameterized by the external collaborators: `b64decode` is
`base64.b64decode`, `store` is `common.storage.store_to_gcs` taking
(folder, file name, MIME type, contents) and returning a location, and
`names` gives the `recontext_result_{uuid}.png` file name of the k-th
upload.  A prediction is processed only when its payload is truthy
(present and non-empty); each upload goes to folder `"recontext_results"`
with MIME type `"image/png"`. -/
def recontextLoop (b64decode : String → List Nat)
    (store : String → String → String → List Nat → String)
    (names : Nat → String) : List Prediction → Nat → List String
  | [], _ => []
  | p :: rest, k =>
      if pyTruthyStr p.bytesBase64Encoded then
        store "recontext_results" (names k) "image/png"
            (b64decode (p.bytesBase64Encoded.getD "")) ::
          recontextLoop b64decode store names rest (k + 1)
      else
        recontextLoop b64decode store names rest k

/-- The value `recontextualize_product_in_scene` returns: the loop started
with an empty accumulator (first upload uses the first generated name). -/
def recontextualize_results (b64decode : String → List Nat)
    (store : String → String → String → List Nat → String)
    (names : Nat → String) (preds : List Prediction) : List String :=
  recontextLoop b64decode store names preds 0

/-- Spec-side description: the base64 payloads carried by the predictions,
in order (a payload is carried when present and non-empty, per Python
truthiness of `prediction.get(...)`). -/
def carriedPayloads (preds : List Prediction) : List String :=
  preds.filterMap fun p =>
    if pyTruthyStr p.bytesBase64Encoded then some (p.bytesBase64Encoded.getD "")
    else none

theorem recontextLoop_eq_enumFrom (b64decode : String → List Nat)
    (store : String → String → String → List Nat → String)
    (names : Nat → String) (preds : List Prediction) :
    ∀ k, recontextLoop b64decode store names preds k =
      ((carriedPayloads preds).enumFrom k).map fun is =>
        store "recontext_results" (names is.1) "image/png" (b64decode is.2) := by
  induction preds with
  | nil => intro k; rfl
  | cons p rest ih =>
      intro k
      by_cases hp : pyTruthyStr p.bytesBase64Encoded
      · simp [recontextLoop, carriedPayloads, hp, List.enumFrom, ih]
      · simp [recontextLoop, carriedPayloads, hp, ih]

/-- Claim C6: the recontextualization response loop uploads, for each
prediction carrying a base64 payload and in response order, the decoded
bytes of that payload to the storage collaborator under folder
`"recontext_results"` with MIME type `"image/png"`, and returns the
resulting location identifiers — one per payload-carrying prediction
(payload-less predictions contribute nothing). -/
theorem recontext_results_one_per_carrier (b64decode : String → List Nat)
    (store : String → String → String → List Nat → String)
    (names : Nat → String) (preds : List Prediction) :
    recontextualize_results b64decode store names preds =
      ((carriedPayloads preds).enum.map fun is =>
        store "recontext_results" (names is.1) "image/png" (b64decode is.2)) ∧
    (recontextualize_results b64decode store names preds).length =
      (carriedPayloads preds).length := by
  have h := recontextLoop_eq_enumFrom b64decode store names preds 0
  constructor
  · simpa [recontextualize_results, List.enum] using h
  · rw [recontextualize_results, h]
    simp [List.enumFrom_length]

/-- Modelled from the spec: the wait schedule of the `tenacity` retry
decorator applied to `generate_images` (lines 77-84) and `edit_image`
(lines 293-298) with `wait_exponential(multiplier=1, min=1, max=10)` — the
decorator implementation is external library code not under `src/`; the
spec states exponential backoff with base 1s, factor 2, capped at 10s
between attempts, so the wait after the n-th failed attempt is
`clamp(1, 10, 1 * 2^(n-1))` seconds. -/
def backoffWait (attempt : Nat) : Nat := max 1 (min (1 * 2 ^ (attempt - 1)) 10)

/-- Modelled from the spec: the retry driver of the `tenacity` decorator
(`stop_after_attempt(3)`, `retry_if_exception_type(Exception)`,
`reraise=True`), external library code not under `src/`.  `f n` is the
outcome of the n-th invocation of the wrapped call; `retriesLeft` counts
the attempts still allowed after the current one.  A successful attempt
returns immediately; every exception — with no classification by error
type — leads to a backoff wait and a retry while attempts remain, and the
last exception value is returned unchanged once attempts are exhausted.
The second component records the waits taken between attempts. -/
def retryGo {E A : Type} (f : Nat → Except E A) :
    Nat → Nat → Except E A × List Nat
  | attempt, 0 => (f attempt, [])
  | attempt, retriesLeft + 1 =>
      match f attempt with
      | Except.ok a => (Except.ok a, [])
      | Except.error _ =>
          let rest := retryGo f (attempt + 1) retriesLeft
          (rest.1, backoffWait attempt :: rest.2)

/-- Modelled from the spec: the retrying call wrapper with 3 total
attempts, as configured on `generate_images` and `edit_image`. -/
def retryCall {E A : Type} (f : Nat → Except E A) : Except E A × List Nat :=
  retryGo f 1 2

/-- Claim C2: the retry wrapper around `generate_images` and `edit_image`
retries on any raised exception (the error type `E` and values are
arbitrary — no classification), makes up to 3 total attempts with waits of
1s then 2s between them (exponential with base 1s and factor 2, and every
wait lies in the capped range [1, 10]); when all 3 attempts fail, the last
exception is returned unchanged — the very value `e3`, so its type and
message are preserved — and when an attempt succeeds after a failure, its
result is returned. -/
theorem retry_wrapper_behavior {E A : Type} (f g : Nat → Except E A)
    (e1 e2 e3 e : E) (a : A)
    (h1 : f 1 = Except.error e1) (h2 : f 2 = Except.error e2)
    (h3 : f 3 = Except.error e3)
    (hg1 : g 1 = Except.error e) (hg2 : g 2 = Except.ok a) :
    retryCall f = (Except.error e3, [backoffWait 1, backoffWait 2]) ∧
    retryCall g = (Except.ok a, [backoffWait 1]) ∧
    backoffWait 1 = 1 ∧ backoffWait 2 = 2 ∧
    (∀ n, 1 ≤ backoffWait n ∧ backoffWait n ≤ 10) := by
  refine ⟨?_, ?_, rfl, rfl, ?_⟩
  · simp [retryCall, retryGo, h1, h2, h3]
  · simp [retryCall, retryGo, hg1, hg2]
  · intro n
    unfold backoffWait
    omega

/-- Witness for C2: a call failing on all three attempts propagates the
third error with waits of 1s and 2s, and a call failing once then
succeeding returns the success after a single 1s wait. -/
theorem retry_wrapper_behavior_witness :
    retryCall (fun n => (Except.error ("fail " ++ toString n) : Except String Nat)) =
      (Except.error "fail 3", [backoffWait 1, backoffWait 2]) ∧
    retryCall (fun n =>
        if n = 1 then (Except.error "fail 1" : Except String Nat) else Except.ok 42) =
      (Except.ok 42, [backoffWait 1]) ∧
    backoffWait 1 = 1 ∧ backoffWait 2 = 2 ∧
    (∀ n, 1 ≤ backoffWait n ∧ backoffWait n ≤ 10) :=
  retry_wrapper_behavior
    (fun n => (Except.error ("fail " ++ toString n) : Except String Nat))
    (fun n => if n = 1 then Except.error "fail 1" else Except.ok 42)
    "fail 1" "fail 2" "fail 3" "fail 1" 42 rfl rfl rfl rfl rfl

end ImageModels
